import Mathlib

/-!
Shallow embedding of the Buffered-Logger core (src/buffered_logger.h,
src/buffered_logger.cpp) and proofs about its specified behaviour.

Modelling conventions:
* Machine integers (uint32_t) are Nat with explicit reduction modulo 2^32.
* Monotonic time points and millisecond durations are Int (the code
  compares durations obtained by duration_cast to milliseconds, so time
  is modelled at millisecond granularity; Int keeps the C++ semantics of
  possibly negative differences).
* std::string message payloads are lists of byte values (List Nat),
  matching the byte-wise FNV-1a loop; for output they are rendered to a
  Lean String verbatim.
* std::unordered_map is an association list with the usual find /
  replace-or-insert / erase operations (keys held by the logger map are
  unique, so erasing every pairing of a key agrees with unordered_map
  erase of the found iterator).
* The wall-clock rendering of a timestamp (system_clock::now(),
  localtime in formatLogEntry) depends on two live clock reads and is
  passed in as an abstract function wall : Int -> String.
* The single-threaded semantics: every public entry point is one atomic
  step (the code serializes them through m_bufferMutex / m_flushMutex);
  the background drainer is one extra kind of step.
* Sink I/O is modelled by accumulating emitted lines in the state
  (fileLines for the file sink, consoleLines for std::cout, and
  callbackBatches for the flush callback).
-/

namespace BufferedLogger

/-- The six log levels of enum class LogLevel, ordinals 0..5. -/
inductive LogLevel where
  | trace
  | debug
  | info
  | warning
  | error
  | critical
deriving DecidableEq

/-- Underlying integral value of a LogLevel (TRACE = 0 .. CRITICAL = 5). -/
def LogLevel.toNat : LogLevel → Nat
  | .trace => 0
  | .debug => 1
  | .info => 2
  | .warning => 3
  | .error => 4
  | .critical => 5

/-- BufferedLogger::Config (buffered_logger.h).  Durations are in
milliseconds. -/
structure Config where
  bufferSize : Nat := 10000
  maxMemoryBytes : Nat := 52428800
  flushInterval : Int := 1000
  enableDeduplication : Bool := true
  deduplicationWindowSize : Nat := 1000
  deduplicationTimeWindow : Int := 5000
  minimumLevel : LogLevel := .debug
  outputFile : String := "driver.log"
  consoleOutput : Bool := false
  asyncFlush : Bool := true
deriving DecidableEq

/-- struct LogEntry (buffered_logger.h).  timestamp is the monotonic
capture time in milliseconds, threadId an opaque numeric thread id. -/
structure LogEntry where
  timestamp : Int
  level : LogLevel
  message : List Nat
  threadId : Nat
  hash : Nat
  count : Nat
deriving DecidableEq

/-- The two-argument LogEntry constructor: stamps the current time and
thread and always starts with count = 1. -/
def mkLogEntry (now : Int) (level : LogLevel) (message : List Nat)
    (tid : Nat) (h : Nat) : LogEntry :=
  { timestamp := now, level := level, message := message,
    threadId := tid, hash := h, count := 1 }

/-- struct DedupeInfo (buffered_logger.h). -/
structure DedupeInfo where
  lastSeen : Int
  count : Nat
deriving DecidableEq

/-- unordered_map find: first (unique) entry with the given key. -/
def mapFind : List (Nat × DedupeInfo) → Nat → Option DedupeInfo
  | [], _ => none
  | (k', v) :: rest, k => if k' = k then some v else mapFind rest k

/-- unordered_map operator[] assignment: replace the entry for the key
if present, otherwise add one. -/
def mapInsert : List (Nat × DedupeInfo) → Nat → DedupeInfo →
    List (Nat × DedupeInfo)
  | [], k, v => [(k, v)]
  | (k', v') :: rest, k, v =>
      if k' = k then (k, v) :: rest else (k', v') :: mapInsert rest k v

/-- unordered_map erase of the entry found for a key (keys are unique in
the logger's map, so removing every pairing of the key is the same). -/
def mapErase : List (Nat × DedupeInfo) → Nat → List (Nat × DedupeInfo)
  | [], _ => []
  | (k', v') :: rest, k =>
      if k' = k then mapErase rest k else (k', v') :: mapErase rest k

/-- BufferedLogger::Stats (counters; lastFlushTime in monotonic ms). -/
structure Stats where
  totalLogged : Nat
  totalFlushed : Nat
  totalDeduplicated : Nat
  currentBufferSize : Nat
  totalFlushes : Nat
  lastFlushTime : Int
deriving DecidableEq

def initStats : Stats :=
  { totalLogged := 0, totalFlushed := 0, totalDeduplicated := 0,
    currentBufferSize := 0, totalFlushes := 0, lastFlushTime := 0 }

/-- The private state of one BufferedLogger instance, plus the lines and
batches delivered to the sinks so far. -/
structure LoggerState where
  config : Config
  primaryBuffer : List LogEntry
  secondaryBuffer : List LogEntry
  useSecondaryBuffer : Bool
  dedupeMap : List (Nat × DedupeInfo)
  dedupeWindow : List Nat
  dedupeWindowIndex : Nat
  shutdownFlag : Bool
  forceFlushRequested : Bool
  fileOpen : Bool
  hasFlushCallback : Bool
  fileLines : List String
  consoleLines : List String
  callbackBatches : List (List LogEntry)
  stats : Stats
deriving DecidableEq

/-- The buffer currently targeted by producers
(m_useSecondaryBuffer ? m_secondaryBuffer : m_primaryBuffer). -/
def activeBuffer (s : LoggerState) : List LogEntry :=
  if s.useSecondaryBuffer then s.secondaryBuffer else s.primaryBuffer

/-- The buffer not currently targeted by producers. -/
def inactiveBuffer (s : LoggerState) : List LogEntry :=
  if s.useSecondaryBuffer then s.primaryBuffer else s.secondaryBuffer

/-- Replace the contents of the currently active buffer. -/
def setActiveBuffer (s : LoggerState) (b : List LogEntry) : LoggerState :=
  if s.useSecondaryBuffer then { s with secondaryBuffer := b }
  else { s with primaryBuffer := b }

/-- The BufferedLogger constructor: buffers empty, dedup ring sized only
when deduplication is enabled at construction, file opened when a path
is configured (a successful open is assumed; the failure path only
prints a warning). -/
def initState (cfg : Config) : LoggerState :=
  { config := cfg
    primaryBuffer := []
    secondaryBuffer := []
    useSecondaryBuffer := false
    dedupeMap := []
    dedupeWindow :=
      if cfg.enableDeduplication then
        List.replicate cfg.deduplicationWindowSize 0
      else []
    dedupeWindowIndex := 0
    shutdownFlag := false
    forceFlushRequested := false
    fileOpen := cfg.outputFile != ""
    hasFlushCallback := false
    fileLines := []
    consoleLines := []
    callbackBatches := []
    stats := initStats }

/-- Reduction modulo 2^32 for the uint32_t arithmetic of computeHash. -/
def u32 (n : Nat) : Nat := n % 4294967296

/-- The value a message byte contributes to the hash:
static_cast of char (signed, so bytes at and above 128 sign-extend)
to uint32_t. -/
def charToU32 (c : Nat) : Nat :=
  if c < 128 then c else 4294967040 + c

/-- One FNV-1a round: hash ^= c; hash *= 16777619 (on uint32_t). -/
def fnvStep (h c : Nat) : Nat := u32 (Nat.xor h c) * 16777619 % 4294967296

/-- BufferedLogger::computeHash: FNV-1a over the level byte followed by
the message bytes, starting from the 2166136261 offset basis.  The
result is returned as computed; nothing folds a zero result to 1. -/
def computeHash (message : List Nat) (level : LogLevel) : Nat :=
  message.foldl (fun h c => fnvStep h (charToU32 c))
    (fnvStep 2166136261 level.toNat)

/-- The ring slot under the cursor, m_dedupeWindow[m_dedupeWindowIndex]
(the C++ read requires the cursor to be in bounds; out of bounds this
returns the sentinel 0). -/
def ringSlot (s : LoggerState) : Nat :=
  s.dedupeWindow.getD s.dedupeWindowIndex 0

/-- The pass path of BufferedLogger::shouldDeduplicate: record
(now, count 1) for the fingerprint, then inspect the ring slot at the
cursor, erase the displaced fingerprint's map entry when it is at least
deduplicationTimeWindow old, write the fingerprint to the slot and step
the cursor modulo the ring length. -/
def dedupInsert (s : LoggerState) (h : Nat) (now : Int) : LoggerState :=
  let m1 := mapInsert s.dedupeMap h ⟨now, 1⟩
  let oldHash := ringSlot s
  let m2 :=
    if oldHash ≠ 0 then
      match mapFind m1 oldHash with
      | some oi =>
          if s.config.deduplicationTimeWindow ≤ now - oi.lastSeen then
            mapErase m1 oldHash
          else m1
      | none => m1
    else m1
  { s with dedupeMap := m2
           dedupeWindow := s.dedupeWindow.set s.dedupeWindowIndex h
           dedupeWindowIndex :=
             (s.dedupeWindowIndex + 1) % s.dedupeWindow.length }

/-- BufferedLogger::shouldDeduplicate: suppress (true) when the
fingerprint has a map entry seen less than deduplicationTimeWindow ago,
bumping its count and refreshing lastSeen; otherwise take the insertion
and ring-eviction path and report pass (false). -/
def shouldDeduplicate (s : LoggerState) (h : Nat) (now : Int) :
    Bool × LoggerState :=
  match mapFind s.dedupeMap h with
  | some info =>
      if now - info.lastSeen < s.config.deduplicationTimeWindow then
        (true,
         { s with dedupeMap :=
             mapInsert s.dedupeMap h ⟨now, info.count + 1⟩ })
      else (false, dedupInsert s h now)
  | none => (false, dedupInsert s h now)

/-- The static levelStrings table of formatLogEntry. -/
def levelStrings : List String :=
  ["TRACE", "DEBUG", "INFO ", "WARN ", "ERROR", "CRIT "]

/-- setw(3) / setfill('0') rendering of the millisecond fraction. -/
def pad3 (n : Nat) : String :=
  if n < 10 then "00" ++ toString n
  else if n < 100 then "0" ++ toString n
  else toString n

/-- std::hex rendering of the numeric thread id. -/
def natToHex (n : Nat) : String := (Nat.toDigits 16 n).asString

/-- A message byte list rendered verbatim into the output line. -/
def msgString (bytes : List Nat) : String :=
  String.mk (bytes.map Char.ofNat)

/-- BufferedLogger::formatLogEntry.  wall abstracts the wall-clock
date-time text derived from the record's monotonic timestamp (the
source combines two live clock reads with localtime, which no pure
function can reproduce); everything after the date-time text is
deterministic and modelled exactly. -/
def formatLogEntry (wall : Int → String) (e : LogEntry) : String :=
  "[" ++ wall e.timestamp ++ "." ++ pad3 (e.timestamp % 1000).toNat
    ++ "] [" ++ levelStrings.getD e.level.toNat "" ++ "] [T:"
    ++ natToHex e.threadId ++ "] " ++ msgString e.message
    ++ (if 1 < e.count then
          " (repeated " ++ toString e.count ++ " times)"
        else "")

/-- sizeof(LogEntry) in the byte estimate; the exact value is
implementation-defined and no theorem depends on it. -/
def logEntryStructSize : Nat := 88

/-- BufferedLogger::estimateMemoryUsage over the active buffer
(capacity of a message modelled by its length; the spec calls the
estimate inexact and uses it only for back-pressure). -/
def estimateMemoryUsage (s : LoggerState) : Nat :=
  (activeBuffer s).foldl
    (fun acc e => acc + logEntryStructSize + e.message.length) 0

/-- BufferedLogger::performFlush: early return when the active buffer is
empty; otherwise move the batch out, flip the selector, format and emit
each record to the open sinks, hand the batch to the callback, and
update the flush statistics and the force-flush flag. -/
def performFlush (wall : Int → String) (now : Int) (s : LoggerState) :
    LoggerState :=
  let cur := activeBuffer s
  if cur = [] then s
  else
    let s1 := setActiveBuffer s []
    let s2 := { s1 with useSecondaryBuffer := !s1.useSecondaryBuffer,
                        stats := { s1.stats with currentBufferSize := 0 } }
    let lines := cur.map (formatLogEntry wall)
    let s3 := { s2 with
      fileLines :=
        if s.fileOpen then s2.fileLines ++ lines else s2.fileLines,
      consoleLines :=
        if s.config.consoleOutput then s2.consoleLines ++ lines
        else s2.consoleLines,
      callbackBatches :=
        if s.hasFlushCallback then s2.callbackBatches ++ [cur]
        else s2.callbackBatches }
    { s3 with
      stats := { s3.stats with
        totalFlushed := s3.stats.totalFlushed + cur.length,
        totalFlushes := s3.stats.totalFlushes + 1,
        lastFlushTime := now },
      forceFlushRequested := false }

/-- BufferedLogger::internalLog: append the record to the active buffer,
bump totalLogged, publish the depth gauge, and on reaching either
back-pressure threshold request a flush (async) or drain inline
(sync). -/
def internalLog (wall : Int → String) (now : Int) (s : LoggerState)
    (e : LogEntry) : LoggerState :=
  let buf := activeBuffer s ++ [e]
  let s2 :=
    { setActiveBuffer s buf with
      stats := { s.stats with
        totalLogged := s.stats.totalLogged + 1,
        currentBufferSize := buf.length } }
  if s.config.bufferSize ≤ buf.length
      ∨ s.config.maxMemoryBytes ≤ estimateMemoryUsage s2 then
    if s.config.asyncFlush then { s2 with forceFlushRequested := true }
    else performFlush wall now s2
  else s2

/-- BufferedLogger::log(level, message): level filter, then (when
deduplication is enabled) fingerprint and dedup probe, then the
buffered append.  Note that the code never consults m_shutdown here. -/
def log (wall : Int → String) (level : LogLevel) (message : List Nat)
    (now : Int) (tid : Nat) (s : LoggerState) : LoggerState :=
  if level.toNat < s.config.minimumLevel.toNat then s
  else if s.config.enableDeduplication then
    let h := computeHash message level
    let r := shouldDeduplicate s h now
    if r.1 then
      { r.2 with stats := { r.2.stats with
          totalDeduplicated := r.2.stats.totalDeduplicated + 1 } }
    else internalLog wall now r.2 (mkLogEntry now level message tid h)
  else internalLog wall now s (mkLogEntry now level message tid 0)

/-- BufferedLogger::flush: async mode just requests and signals;
sync mode drains inline. -/
def flush (wall : Int → String) (now : Int) (s : LoggerState) :
    LoggerState :=
  if s.config.asyncFlush then { s with forceFlushRequested := true }
  else performFlush wall now s

/-- BufferedLogger::forceFlush drains inline regardless of mode. -/
def forceFlush (wall : Int → String) (now : Int) (s : LoggerState) :
    LoggerState :=
  performFlush wall now s

/-- One iteration of BufferedLogger::flushWorker past its wait: exit
without draining when shutdown was observed, otherwise drain.  The
worker thread only exists in async mode. -/
def flushWorkerStep (wall : Int → String) (now : Int) (s : LoggerState) :
    LoggerState :=
  if s.config.asyncFlush && !s.shutdownFlag then performFlush wall now s
  else s

/-- BufferedLogger::setMinimumLevel. -/
def setMinimumLevel (l : LogLevel) (s : LoggerState) : LoggerState :=
  { s with config := { s.config with minimumLevel := l } }

/-- BufferedLogger::enableDeduplication(enable): store the flag; on
disable clear the map, zero the ring (std::fill keeps its length) and
reset the cursor.  Enabling never resizes the ring. -/
def enableDeduplication (b : Bool) (s : LoggerState) : LoggerState :=
  let s1 := { s with config := { s.config with enableDeduplication := b } }
  if b then s1
  else
    { s1 with dedupeMap := []
              dedupeWindow := List.replicate s1.dedupeWindow.length 0
              dedupeWindowIndex := 0 }

/-- BufferedLogger::shutdown: idempotent via the exchanged flag; a fresh
shutdown joins the worker, performs the final inline drain and closes
the file. -/
def shutdown (wall : Int → String) (now : Int) (s : LoggerState) :
    LoggerState :=
  if s.shutdownFlag then s
  else
    let s2 := performFlush wall now { s with shutdownFlag := true }
    { s2 with fileOpen := false }

/-- One externally visible step of the logger: a producer call, a flush
trigger, a drainer iteration, a runtime reconfiguration, or shutdown. -/
inductive Action where
  | logA (level : LogLevel) (message : List Nat) (now : Int) (tid : Nat)
  | flushA (now : Int)
  | forceFlushA (now : Int)
  | workerA (now : Int)
  | setMinLevelA (l : LogLevel)
  | setDedupA (b : Bool)
  | shutdownA (now : Int)

def Action.isShutdown : Action → Bool
  | .shutdownA _ => true
  | _ => false

/-- Interpret one Action on the logger state. -/
def step (wall : Int → String) (s : LoggerState) : Action → LoggerState
  | .logA level message now tid => log wall level message now tid s
  | .flushA now => flush wall now s
  | .forceFlushA now => forceFlush wall now s
  | .workerA now => flushWorkerStep wall now s
  | .setMinLevelA l => setMinimumLevel l s
  | .setDedupA b => enableDeduplication b s
  | .shutdownA now => shutdown wall now s

/-- Run a finite sequence of steps. -/
def run (wall : Int → String) (s : LoggerState) (as : List Action) :
    LoggerState :=
  as.foldl (step wall) s

/-! Association-list map lemmas. -/

theorem mapFind_insert_self (m : List (Nat × DedupeInfo)) (k : Nat)
    (v : DedupeInfo) : mapFind (mapInsert m k v) k = some v := by
  induction m with
  | nil => simp [mapInsert, mapFind]
  | cons p rest ih =>
      by_cases hk : p.1 = k <;> simp [mapInsert, mapFind, hk, ih]

theorem mapFind_insert_ne (m : List (Nat × DedupeInfo)) (k k2 : Nat)
    (v : DedupeInfo) (hne : k2 ≠ k) :
    mapFind (mapInsert m k v) k2 = mapFind m k2 := by
  have hkk : ¬k = k2 := fun hh => hne hh.symm
  induction m with
  | nil => simp [mapInsert, mapFind, hkk]
  | cons p rest ih =>
      by_cases hk : p.1 = k
      · simp [mapInsert, mapFind, hk, hkk]
      · simp [mapInsert, mapFind, hk, ih]

theorem mapFind_erase_self (m : List (Nat × DedupeInfo)) (k : Nat) :
    mapFind (mapErase m k) k = none := by
  induction m with
  | nil => simp [mapErase, mapFind]
  | cons p rest ih =>
      by_cases hk : p.1 = k <;> simp [mapErase, mapFind, hk, ih]

theorem mapFind_erase_ne (m : List (Nat × DedupeInfo)) (k k2 : Nat)
    (hne : k2 ≠ k) : mapFind (mapErase m k) k2 = mapFind m k2 := by
  have hkk : ¬k = k2 := fun hh => hne hh.symm
  induction m with
  | nil => simp [mapErase, mapFind]
  | cons p rest ih =>
      by_cases hk : p.1 = k
      · simp [mapErase, mapFind, hk, hkk, ih]
      · simp [mapErase, mapFind, hk, ih]

/-- A fixed wall-clock renderer used for concrete evaluations. -/
def wallEx : Int → String := fun _ => "1970-01-01 00:00:00"

/-- Claim C3: the probe suppresses iff a map entry exists that was last
seen less than the time window ago, and on suppression the entry is
re-stamped to (now, count + 1); otherwise the probe passes. -/
theorem c3_dedup_probe_contract (s : LoggerState) (h : Nat) (now : Int) :
    ((shouldDeduplicate s h now).1 = true ↔
      ∃ info, mapFind s.dedupeMap h = some info ∧
        now - info.lastSeen < s.config.deduplicationTimeWindow)
    ∧ (∀ info, mapFind s.dedupeMap h = some info →
        now - info.lastSeen < s.config.deduplicationTimeWindow →
        mapFind (shouldDeduplicate s h now).2.dedupeMap h =
          some ⟨now, info.count + 1⟩) := by
  rcases hfind : mapFind s.dedupeMap h with _ | info
  · refine ⟨?_, ?_⟩
    · simp [shouldDeduplicate, hfind]
    · intro info hsome
      cases hsome
  · by_cases hlt : now - info.lastSeen < s.config.deduplicationTimeWindow
    · refine ⟨⟨fun _ => ⟨info, rfl, hlt⟩, fun _ => ?_⟩, ?_⟩
      · simp [shouldDeduplicate, hfind, if_pos hlt]
      · intro info' hsome _
        injection hsome with he
        subst he
        simp [shouldDeduplicate, hfind, if_pos hlt, mapFind_insert_self]
    · refine ⟨⟨fun habs => absurd habs ?_, fun hex => ?_⟩, ?_⟩
      · simp [shouldDeduplicate, hfind, if_neg hlt]
      · rcases hex with ⟨info', hsome, hlt'⟩
        injection hsome with he
        subst he
        exact absurd hlt' hlt
      · intro info' hsome hlt'
        injection hsome with he
        subst he
        exact absurd hlt' hlt

/-- A suppressing probe at a concrete state: the entry for fingerprint 5,
last seen at time 8, probed at time 10 with a 5000 ms window, is
suppressed and re-stamped. -/
theorem c3_dedup_probe_contract_witness :
    (shouldDeduplicate
      { initState { } with dedupeMap := [(5, ⟨8, 3⟩)] } 5 10).1 = true
    ∧ mapFind (shouldDeduplicate
        { initState { } with dedupeMap := [(5, ⟨8, 3⟩)] } 5 10).2.dedupeMap 5
      = some ⟨10, 4⟩ := by
  have h := c3_dedup_probe_contract
    { initState { } with dedupeMap := [(5, ⟨8, 3⟩)] } 5 10
  refine ⟨h.1.mpr ⟨⟨8, 3⟩, by decide, by decide⟩, ?_⟩
  exact h.2 ⟨8, 3⟩ (by decide) (by decide)

/-- On pass, the probe state is exactly the insertion-and-eviction
path. -/
theorem shouldDeduplicate_pass_eq (s : LoggerState) (h : Nat) (now : Int)
    (hpass : (shouldDeduplicate s h now).1 = false) :
    (shouldDeduplicate s h now).2 = dedupInsert s h now := by
  rcases hfind : mapFind s.dedupeMap h with _ | info
  · simp [shouldDeduplicate, hfind]
  · by_cases hlt : now - info.lastSeen < s.config.deduplicationTimeWindow
    · simp [shouldDeduplicate, hfind, if_pos hlt] at hpass
    · simp [shouldDeduplicate, hfind, if_neg hlt]

/-- Config used by the C4 counterexample: one ring slot and a zero-width
suppression window. -/
def cfgC4 : Config :=
  { bufferSize := 10, maxMemoryBytes := 1000000, flushInterval := 1000,
    enableDeduplication := true, deduplicationWindowSize := 1,
    deduplicationTimeWindow := 0, minimumLevel := .trace,
    outputFile := "", consoleOutput := false, asyncFlush := false }

/-- Claim C4 counterexample: with a one-slot ring and a 0 ms window,
probing the same fingerprint after an earlier pass returns pass again,
but the probed fingerprint's freshly written map entry is immediately
removed again by the ring-displacement step (it displaces itself and is
already counted stale), so the final state has no map entry
(now, count 1) for it, contradicting the claim's postcondition. -/
theorem c4_pass_path_counterexample :
    (shouldDeduplicate (run wallEx (initState cfgC4)
        [Action.logA .info [97] 0 1]) (computeHash [97] .info) 0).1 = false
    ∧ mapFind (shouldDeduplicate (run wallEx (initState cfgC4)
        [Action.logA .info [97] 0 1]) (computeHash [97] .info) 0).2.dedupeMap
        (computeHash [97] .info) = none := by
  constructor
  · decide
  · decide

/-- On the pass path with a positive suppression window, the probed
fingerprint ends up mapped to (now, count 1). -/
theorem dedupInsert_find_self (s : LoggerState) (h : Nat) (now : Int)
    (hwin : 0 < s.config.deduplicationTimeWindow) :
    mapFind (dedupInsert s h now).dedupeMap h = some ⟨now, 1⟩ := by
  simp only [dedupInsert]
  by_cases h0 : ringSlot s ≠ 0
  · rcases hfind : mapFind (mapInsert s.dedupeMap h ⟨now, 1⟩)
        (ringSlot s) with _ | oi
    · simp [h0, hfind, mapFind_insert_self]
    · by_cases hstale :
          s.config.deduplicationTimeWindow ≤ now - oi.lastSeen
      · have hne : h ≠ ringSlot s := by
          intro he
          rw [← he, mapFind_insert_self] at hfind
          injection hfind with hoi
          rw [← hoi] at hstale
          simp at hstale
          omega
        simp [h0, hfind, hstale, mapFind_erase_ne _ _ _ hne,
          mapFind_insert_self]
      · simp [h0, hfind, hstale, mapFind_insert_self]
  · simp [h0, mapFind_insert_self]

/-- On the pass path, a displaced ring occupant whose entry is at least
the window old is erased from the map. -/
theorem dedupInsert_evicts_stale (s : LoggerState) (h : Nat) (now : Int)
    (oi : DedupeInfo)
    (h0 : ringSlot s ≠ 0)
    (hfind : mapFind (mapInsert s.dedupeMap h ⟨now, 1⟩)
        (ringSlot s) = some oi)
    (hstale : s.config.deduplicationTimeWindow ≤ now - oi.lastSeen) :
    mapFind (dedupInsert s h now).dedupeMap
      (ringSlot s) = none := by
  simp only [dedupInsert]
  simp [h0, hfind, hstale, mapFind_erase_self]

/-- On the pass path, a displaced ring occupant whose entry is still
inside the window is left in the map. -/
theorem dedupInsert_keeps_recent (s : LoggerState) (h : Nat) (now : Int)
    (oi : DedupeInfo)
    (h0 : ringSlot s ≠ 0)
    (hfind : mapFind (mapInsert s.dedupeMap h ⟨now, 1⟩)
        (ringSlot s) = some oi)
    (hfresh : now - oi.lastSeen < s.config.deduplicationTimeWindow) :
    mapFind (dedupInsert s h now).dedupeMap
      (ringSlot s) = some oi := by
  simp only [dedupInsert]
  have hstale : ¬s.config.deduplicationTimeWindow ≤ now - oi.lastSeen :=
    by omega
  simp [h0, hfind, hstale]

/-- Claim C4 (amended: the suppression window is positive): a pass
leaves the probed fingerprint mapped to (now, count 1), erases the
displaced non-zero ring occupant exactly when its entry is at least the
window old, writes the fingerprint into the slot at the cursor and
advances the cursor modulo the ring length. -/
theorem c4_pass_path_postconditions (s : LoggerState) (h : Nat)
    (now : Int) (hpass : (shouldDeduplicate s h now).1 = false)
    (hwin : 0 < s.config.deduplicationTimeWindow) :
    mapFind (shouldDeduplicate s h now).2.dedupeMap h = some ⟨now, 1⟩
    ∧ (shouldDeduplicate s h now).2.dedupeWindow
        = s.dedupeWindow.set s.dedupeWindowIndex h
    ∧ (shouldDeduplicate s h now).2.dedupeWindowIndex
        = (s.dedupeWindowIndex + 1) % s.dedupeWindow.length
    ∧ (∀ oi, ringSlot s ≠ 0 →
        mapFind (mapInsert s.dedupeMap h ⟨now, 1⟩)
            (ringSlot s) = some oi →
        s.config.deduplicationTimeWindow ≤ now - oi.lastSeen →
        mapFind (shouldDeduplicate s h now).2.dedupeMap
          (ringSlot s) = none)
    ∧ (∀ oi, ringSlot s ≠ 0 →
        mapFind (mapInsert s.dedupeMap h ⟨now, 1⟩)
            (ringSlot s) = some oi →
        now - oi.lastSeen < s.config.deduplicationTimeWindow →
        mapFind (shouldDeduplicate s h now).2.dedupeMap
          (ringSlot s) = some oi) := by
  rw [shouldDeduplicate_pass_eq s h now hpass]
  refine ⟨dedupInsert_find_self s h now hwin, rfl, rfl, ?_, ?_⟩
  · intro oi h0 hfind hstale
    exact dedupInsert_evicts_stale s h now oi h0 hfind hstale
  · intro oi h0 hfind hfresh
    exact dedupInsert_keeps_recent s h now oi h0 hfind hfresh

/-- The amended C4 at a concrete state: a pass for fingerprint 9 over a
ring whose slot holds the stale fingerprint 5 installs (now, 1) for 9,
erases 5, writes 9 into the slot and advances the cursor. -/
theorem c4_pass_path_witness :
    mapFind (shouldDeduplicate
      { initState { } with
          dedupeMap := [(5, ⟨0, 1⟩)],
          dedupeWindow := [5, 0],
          dedupeWindowIndex := 0 } 9 6000).2.dedupeMap 9 = some ⟨6000, 1⟩
    ∧ mapFind (shouldDeduplicate
      { initState { } with
          dedupeMap := [(5, ⟨0, 1⟩)],
          dedupeWindow := [5, 0],
          dedupeWindowIndex := 0 } 9 6000).2.dedupeMap 5 = none
    ∧ (shouldDeduplicate
      { initState { } with
          dedupeMap := [(5, ⟨0, 1⟩)],
          dedupeWindow := [5, 0],
          dedupeWindowIndex := 0 } 9 6000).2.dedupeWindow = [9, 0]
    ∧ (shouldDeduplicate
      { initState { } with
          dedupeMap := [(5, ⟨0, 1⟩)],
          dedupeWindow := [5, 0],
          dedupeWindowIndex := 0 } 9 6000).2.dedupeWindowIndex = 1 := by
  have h := c4_pass_path_postconditions
    { initState { } with
        dedupeMap := [(5, ⟨0, 1⟩)],
        dedupeWindow := [5, 0],
        dedupeWindowIndex := 0 } 9 6000 (by decide) (by decide)
  refine ⟨h.1, ?_, h.2.1, h.2.2.1⟩
  exact h.2.2.2.1 ⟨0, 1⟩ (by decide) (by decide) (by decide)

/-- The message bytes of a concrete submission whose FNV-1a fingerprint
is zero (found by inverting the hash rounds). -/
def c5Message : List Nat := [105, 61, 96, 36, 82, 33]

/-- Claim C5: the code returns the raw FNV-1a value, so this TRACE-level
submission receives fingerprint 0, which is the reserved empty-ring-slot
sentinel; nothing folds it to 1. -/
theorem c5_fnv_zero_not_folded :
    computeHash c5Message .trace = 0 := by decide

/-- Claim C6: a submission strictly below the configured minimum level
returns with the state (buffers, dedup cache, counters, emitted lines)
completely unchanged. -/
theorem c6_level_filter_noop (wall : Int → String) (level : LogLevel)
    (message : List Nat) (now : Int) (tid : Nat) (s : LoggerState)
    (hlvl : level.toNat < s.config.minimumLevel.toNat) :
    log wall level message now tid s = s := by
  simp [log, hlvl]

/-- The level filter at a concrete input: a TRACE submission under the
default DEBUG minimum level leaves the fresh logger untouched. -/
theorem c6_level_filter_witness :
    log wallEx .trace [97] 0 1 (initState { }) = initState { } :=
  c6_level_filter_noop wallEx .trace [97] 0 1 (initState { }) (by decide)

/-- Claim C7: the drain routine on an empty active buffer is the
identity: buffers, selector, statistics, dedup state and emitted lines
all unchanged. -/
theorem c7_empty_drain_noop (wall : Int → String) (now : Int)
    (s : LoggerState) (hempty : activeBuffer s = []) :
    performFlush wall now s = s := by
  simp [performFlush, hempty]

/-- The empty drain at a concrete input: flushing a fresh logger is the
identity. -/
theorem c7_empty_drain_witness :
    performFlush wallEx 0 (initState { }) = initState { } :=
  c7_empty_drain_noop wallEx 0 (initState { }) rfl

/-- Config used by the C2 theorem: synchronous flush, console sink on,
one-record buffer, no file. -/
def cfgC2 : Config :=
  { bufferSize := 1, maxMemoryBytes := 1000000, flushInterval := 1000,
    enableDeduplication := false, deduplicationWindowSize := 1000,
    deduplicationTimeWindow := 5000, minimumLevel := .trace,
    outputFile := "", consoleOutput := true, asyncFlush := false }

/-- Claim C2: log() never consults the shutdown flag, so a submission
after a completed shutdown is not a no-op: the record is appended
(totalLogged becomes 1), drained (totalFlushed becomes 1), and its
formatted line is emitted to the console sink. -/
theorem c2_post_shutdown_submission_not_dropped :
    (log wallEx .info [120] 1 7
        (shutdown wallEx 0 (initState cfgC2))).stats.totalLogged = 1
    ∧ (log wallEx .info [120] 1 7
        (shutdown wallEx 0 (initState cfgC2))).stats.totalFlushed = 1
    ∧ (log wallEx .info [120] 1 7
        (shutdown wallEx 0 (initState cfgC2))).consoleLines.length = 1
    ∧ (shutdown wallEx 0 (initState cfgC2)).shutdownFlag = true := by
  refine ⟨?_, ?_, ?_, ?_⟩ <;> decide

/-- Config used by the C9 theorem: deduplication disabled at
construction, default (positive) ring size. -/
def cfgC9 : Config :=
  { bufferSize := 10000, maxMemoryBytes := 52428800,
    flushInterval := 1000, enableDeduplication := false,
    deduplicationWindowSize := 1000, deduplicationTimeWindow := 5000,
    minimumLevel := .debug, outputFile := "driver.log",
    consoleOutput := false, asyncFlush := false }

/-- Claim C9: the constructor sizes the eviction ring only when
deduplication is enabled at construction, and enableDeduplication(true)
never resizes it.  Constructing with deduplication off and then enabling
it reaches a state with deduplication enabled and a zero-length ring,
so the probe's slot read and its cursor advance modulo the ring size
are out of bounds, contradicting the claim. -/
theorem c9_enabled_dedup_empty_ring :
    (enableDeduplication true (initState cfgC9)).config.enableDeduplication
      = true
    ∧ (enableDeduplication true (initState cfgC9)).dedupeWindow.length = 0
    ∧ cfgC9.deduplicationWindowSize = 1000 := by
  refine ⟨?_, ?_, ?_⟩ <;> decide

/-- The level tag of a line: the levelStrings table indexed by the
level's ordinal. -/
def levelTag (l : LogLevel) : String := levelStrings.getD l.toNat ""

/-- Claim C8: a formatted line is the bracketed timestamp, the level tag
selected from the table by the level's ordinal (each tag 5 characters,
with the tags TRACE/DEBUG/INFO /WARN /ERROR/CRIT aligned by padding),
the thread id in hexadecimal, the message verbatim, and the repetition
suffix, which is present iff count exceeds 1. -/
theorem c8_format_line_shape (wall : Int → String) (e : LogEntry) :
    formatLogEntry wall e =
      "[" ++ wall e.timestamp ++ "." ++ pad3 (e.timestamp % 1000).toNat
        ++ "] [" ++ levelTag e.level ++ "] [T:" ++ natToHex e.threadId
        ++ "] " ++ msgString e.message
        ++ (if 1 < e.count then
              " (repeated " ++ toString e.count ++ " times)"
            else "")
    ∧ (levelTag e.level).length = 5
    ∧ levelTag .trace = "TRACE" ∧ levelTag .debug = "DEBUG"
    ∧ levelTag .info = "INFO " ∧ levelTag .warning = "WARN "
    ∧ levelTag .error = "ERROR" ∧ levelTag .critical = "CRIT "
    ∧ ((if 1 < e.count then
          " (repeated " ++ toString e.count ++ " times)"
        else "") = "" ↔ e.count ≤ 1) := by
  refine ⟨rfl, ?_, rfl, rfl, rfl, rfl, rfl, rfl, ?_, ?_⟩
  · cases e.level <;> decide
  · intro hemp
    by_cases hc : 1 < e.count
    · exfalso
      rw [if_pos hc] at hemp
      have hlen := congrArg String.length hemp
      rw [String.length_append, String.length_append] at hlen
      have h1 : (" (repeated " : String).length = 11 := rfl
      have h2 : (" times)" : String).length = 7 := rfl
      have h3 : ("" : String).length = 0 := rfl
      rw [h1, h2, h3] at hlen
      omega
    · omega
  · intro hle
    rw [if_neg (by omega)]

/-- The probe only rewrites the three deduplication fields; every other
field of the state is carried over unchanged. -/
theorem shouldDeduplicate_state_eq (s : LoggerState) (h : Nat)
    (now : Int) :
    (shouldDeduplicate s h now).2 =
      { s with
        dedupeMap := (shouldDeduplicate s h now).2.dedupeMap,
        dedupeWindow := (shouldDeduplicate s h now).2.dedupeWindow,
        dedupeWindowIndex :=
          (shouldDeduplicate s h now).2.dedupeWindowIndex } := by
  rcases hfind : mapFind s.dedupeMap h with _ | info
  · simp [shouldDeduplicate, hfind, dedupInsert]
  · by_cases hlt : now - info.lastSeen < s.config.deduplicationTimeWindow
    · simp [shouldDeduplicate, hfind, if_pos hlt]
    · simp [shouldDeduplicate, hfind, if_neg hlt, dedupInsert]

/-- The two balance facts behind the no-loss property: the inactive
buffer is empty, and totalFlushed plus the records still buffered
equals totalLogged. -/
def Inv (s : LoggerState) : Prop :=
  inactiveBuffer s = []
  ∧ s.stats.totalFlushed + (activeBuffer s).length = s.stats.totalLogged

theorem inv_init (cfg : Config) : Inv (initState cfg) := by
  constructor <;>
    simp [initState, initStats, inactiveBuffer, activeBuffer]

theorem performFlush_frame (wall : Int → String) (now : Int)
    (s : LoggerState) :
    (performFlush wall now s).config = s.config
    ∧ (performFlush wall now s).shutdownFlag = s.shutdownFlag
    ∧ (performFlush wall now s).stats.totalLogged = s.stats.totalLogged
    ∧ (performFlush wall now s).stats.totalDeduplicated
        = s.stats.totalDeduplicated
    ∧ (performFlush wall now s).fileOpen = s.fileOpen := by
  by_cases hc : activeBuffer s = []
  · simp [performFlush, hc]
  · cases hu : s.useSecondaryBuffer <;>
      simp [performFlush, hc, setActiveBuffer, hu]

theorem performFlush_inv (wall : Int → String) (now : Int)
    (s : LoggerState) (h : Inv s) : Inv (performFlush wall now s) := by
  obtain ⟨hin, hbal⟩ := h
  by_cases hc : activeBuffer s = []
  · constructor
    · simpa [performFlush, hc] using hin
    · simpa [performFlush, hc] using hbal
  · cases hu : s.useSecondaryBuffer
    · simp [inactiveBuffer, hu] at hin
      simp [activeBuffer, hu] at hbal hc
      constructor
      · simp [performFlush, activeBuffer, inactiveBuffer,
          setActiveBuffer, hu, hc]
      · simp [performFlush, activeBuffer, setActiveBuffer, hu, hc, hin]
        omega
    · simp [inactiveBuffer, hu] at hin
      simp [activeBuffer, hu] at hbal hc
      constructor
      · simp [performFlush, activeBuffer, inactiveBuffer,
          setActiveBuffer, hu, hc]
      · simp [performFlush, activeBuffer, setActiveBuffer, hu, hc, hin]
        omega

theorem performFlush_active_empty (wall : Int → String) (now : Int)
    (s : LoggerState) (h : Inv s) :
    activeBuffer (performFlush wall now s) = [] := by
  obtain ⟨hin, hbal⟩ := h
  by_cases hc : activeBuffer s = []
  · simp [performFlush, hc]
  · cases hu : s.useSecondaryBuffer
    · simp [inactiveBuffer, hu] at hin
      simp [activeBuffer, hu] at hc
      simp [performFlush, activeBuffer, setActiveBuffer, hu, hc, hin]
    · simp [inactiveBuffer, hu] at hin
      simp [activeBuffer, hu] at hc
      simp [performFlush, activeBuffer, setActiveBuffer, hu, hc, hin]

theorem internalLog_inv (wall : Int → String) (now : Int)
    (s : LoggerState) (e : LogEntry) (h : Inv s) :
    Inv (internalLog wall now s e) := by
  obtain ⟨hin, hbal⟩ := h
  have hmid : Inv ({ setActiveBuffer s (activeBuffer s ++ [e]) with
      stats := { s.stats with
        totalLogged := s.stats.totalLogged + 1,
        currentBufferSize := (activeBuffer s ++ [e]).length } }) := by
    constructor
    · cases hu : s.useSecondaryBuffer
      · simp [inactiveBuffer, hu] at hin
        simp [inactiveBuffer, setActiveBuffer, hu, hin]
      · simp [inactiveBuffer, hu] at hin
        simp [inactiveBuffer, setActiveBuffer, hu, hin]
    · cases hu : s.useSecondaryBuffer
      · simp [activeBuffer, hu] at hbal
        simp [activeBuffer, setActiveBuffer, hu]
        omega
      · simp [activeBuffer, hu] at hbal
        simp [activeBuffer, setActiveBuffer, hu]
        omega
  simp only [internalLog]
  split
  · split
    · exact ⟨hmid.1, hmid.2⟩
    · exact performFlush_inv wall now _ hmid
  · exact hmid

theorem log_inv (wall : Int → String) (level : LogLevel)
    (message : List Nat) (now : Int) (tid : Nat) (s : LoggerState)
    (h : Inv s) : Inv (log wall level message now tid s) := by
  by_cases hlvl : level.toNat < s.config.minimumLevel.toNat
  · simpa [log, hlvl] using h
  · by_cases hd : s.config.enableDeduplication
    · have hr : Inv (shouldDeduplicate s (computeHash message level)
          now).2 := by
        rw [shouldDeduplicate_state_eq s (computeHash message level) now]
        exact ⟨h.1, h.2⟩
      by_cases hsup :
          (shouldDeduplicate s (computeHash message level) now).1 = true
      · simp only [log, if_neg hlvl, hd, if_true, hsup]
        exact ⟨hr.1, hr.2⟩
      · simp only [log, if_neg hlvl, hd, if_true,
          Bool.not_eq_true] at hsup ⊢
        rw [hsup]
        simp only [Bool.false_eq_true, if_false]
        exact internalLog_inv wall now _ _ hr
    · simp only [log, if_neg hlvl, Bool.not_eq_true] at hd ⊢
      rw [hd]
      simp only [Bool.false_eq_true, if_false]
      exact internalLog_inv wall now s _ h

/-! Preservation of the shutdown flag by the non-shutdown operations. -/

theorem setActiveBuffer_flag (s : LoggerState) (b : List LogEntry) :
    (setActiveBuffer s b).shutdownFlag = s.shutdownFlag := by
  cases hu : s.useSecondaryBuffer <;> simp [setActiveBuffer, hu]

theorem internalLog_flag (wall : Int → String) (now : Int)
    (s : LoggerState) (e : LogEntry) :
    (internalLog wall now s e).shutdownFlag = s.shutdownFlag := by
  simp only [internalLog]
  split
  · split
    · exact setActiveBuffer_flag s _
    · rw [(performFlush_frame wall now _).2.1]
      exact setActiveBuffer_flag s _
  · exact setActiveBuffer_flag s _

theorem log_flag (wall : Int → String) (level : LogLevel)
    (message : List Nat) (now : Int) (tid : Nat) (s : LoggerState) :
    (log wall level message now tid s).shutdownFlag = s.shutdownFlag := by
  by_cases hlvl : level.toNat < s.config.minimumLevel.toNat
  · simp [log, hlvl]
  · by_cases hd : s.config.enableDeduplication
    · have hr : (shouldDeduplicate s (computeHash message level)
          now).2.shutdownFlag = s.shutdownFlag := by
        rw [shouldDeduplicate_state_eq s (computeHash message level) now]
      by_cases hsup :
          (shouldDeduplicate s (computeHash message level) now).1 = true
      · simp only [log, if_neg hlvl, hd, if_true, hsup]
        exact hr
      · simp only [Bool.not_eq_true] at hsup
        simp only [log, if_neg hlvl, hd, if_true, hsup,
          Bool.false_eq_true, if_false]
        rw [internalLog_flag]
        exact hr
    · simp only [Bool.not_eq_true] at hd
      simp only [log, if_neg hlvl, hd, Bool.false_eq_true, if_false]
      exact internalLog_flag wall now s _

theorem flush_inv (wall : Int → String) (now : Int) (s : LoggerState)
    (h : Inv s) : Inv (flush wall now s) := by
  by_cases ha : s.config.asyncFlush
  · simp only [flush, ha, if_true]
    exact ⟨h.1, h.2⟩
  · simp only [Bool.not_eq_true] at ha
    simp only [flush, ha, Bool.false_eq_true, if_false]
    exact performFlush_inv wall now s h

theorem flush_flag (wall : Int → String) (now : Int) (s : LoggerState) :
    (flush wall now s).shutdownFlag = s.shutdownFlag := by
  by_cases ha : s.config.asyncFlush
  · simp [flush, ha]
  · simp only [Bool.not_eq_true] at ha
    simp only [flush, ha, Bool.false_eq_true, if_false]
    exact (performFlush_frame wall now s).2.1

theorem flushWorkerStep_inv (wall : Int → String) (now : Int)
    (s : LoggerState) (h : Inv s) : Inv (flushWorkerStep wall now s) := by
  by_cases hb : (s.config.asyncFlush && !s.shutdownFlag) = true
  · simp only [flushWorkerStep, hb, if_true]
    exact performFlush_inv wall now s h
  · simp only [Bool.not_eq_true] at hb
    simp only [flushWorkerStep, hb, Bool.false_eq_true, if_false]
    exact h

theorem flushWorkerStep_flag (wall : Int → String) (now : Int)
    (s : LoggerState) :
    (flushWorkerStep wall now s).shutdownFlag = s.shutdownFlag := by
  by_cases hb : (s.config.asyncFlush && !s.shutdownFlag) = true
  · simp only [flushWorkerStep, hb, if_true]
    exact (performFlush_frame wall now s).2.1
  · simp only [Bool.not_eq_true] at hb
    simp only [flushWorkerStep, hb, Bool.false_eq_true, if_false]

theorem setMinimumLevel_inv (l : LogLevel) (s : LoggerState)
    (h : Inv s) : Inv (setMinimumLevel l s) := ⟨h.1, h.2⟩

theorem enableDeduplication_inv (b : Bool) (s : LoggerState)
    (h : Inv s) : Inv (enableDeduplication b s) := by
  by_cases hb : b = true
  · subst hb
    simp only [enableDeduplication, if_true]
    exact ⟨h.1, h.2⟩
  · simp only [Bool.not_eq_true] at hb
    subst hb
    simp only [enableDeduplication, Bool.false_eq_true, if_false]
    exact ⟨h.1, h.2⟩

theorem enableDeduplication_flag (b : Bool) (s : LoggerState) :
    (enableDeduplication b s).shutdownFlag = s.shutdownFlag := by
  by_cases hb : b = true
  · subst hb
    simp [enableDeduplication]
  · simp only [Bool.not_eq_true] at hb
    subst hb
    simp [enableDeduplication]

theorem step_inv_flag (wall : Int → String) (s : LoggerState)
    (a : Action) (h : Inv s) (hflag : s.shutdownFlag = false)
    (hns : a.isShutdown = false) :
    Inv (step wall s a) ∧ (step wall s a).shutdownFlag = false := by
  cases a with
  | logA level message now tid =>
      exact ⟨log_inv wall level message now tid s h,
        (log_flag wall level message now tid s).trans hflag⟩
  | flushA now =>
      exact ⟨flush_inv wall now s h, (flush_flag wall now s).trans hflag⟩
  | forceFlushA now =>
      exact ⟨performFlush_inv wall now s h,
        ((performFlush_frame wall now s).2.1).trans hflag⟩
  | workerA now =>
      exact ⟨flushWorkerStep_inv wall now s h,
        (flushWorkerStep_flag wall now s).trans hflag⟩
  | setMinLevelA l =>
      exact ⟨setMinimumLevel_inv l s h, hflag⟩
  | setDedupA b =>
      exact ⟨enableDeduplication_inv b s h,
        (enableDeduplication_flag b s).trans hflag⟩
  | shutdownA now => cases hns

theorem run_inv_flag (wall : Int → String) :
    ∀ (as : List Action) (s : LoggerState), Inv s →
      s.shutdownFlag = false → (∀ a ∈ as, a.isShutdown = false) →
      Inv (run wall s as) ∧ (run wall s as).shutdownFlag = false := by
  intro as
  induction as with
  | nil => intro s h hf _; exact ⟨h, hf⟩
  | cons a rest ih =>
      intro s h hf hall
      have h1 := step_inv_flag wall s a h hf (hall a (by simp))
      exact ih (step wall s a) h1.1 h1.2
        (fun b hb => hall b (List.mem_cons_of_mem a hb))

/-- Config used by the C1 counterexample and witness: synchronous mode,
deduplication on, no sinks. -/
def cfgC1 : Config :=
  { bufferSize := 10, maxMemoryBytes := 1000000, flushInterval := 1000,
    enableDeduplication := true, deduplicationWindowSize := 4,
    deduplicationTimeWindow := 5000, minimumLevel := .trace,
    outputFile := "", consoleOutput := false, asyncFlush := false }

/-- Claim C1 counterexample: two submissions of the same message in the
same window, then a clean shutdown.  The second submission is
suppressed, so totalLogged = 1, totalDeduplicated = 1 and
totalFlushed = 1: totalLogged − totalDeduplicated = 0 ≠ 1.  The code
counts a suppressed record in totalDeduplicated only and never in
totalLogged, so the claimed identity fails whenever anything was
deduplicated. -/
theorem c1_stats_identity_counterexample :
    ¬ ((shutdown wallEx 2 (run wallEx (initState cfgC1)
          [Action.logA .info [97] 0 1,
           Action.logA .info [97] 1 1])).stats.totalLogged
        - (shutdown wallEx 2 (run wallEx (initState cfgC1)
          [Action.logA .info [97] 0 1,
           Action.logA .info [97] 1 1])).stats.totalDeduplicated
        = (shutdown wallEx 2 (run wallEx (initState cfgC1)
          [Action.logA .info [97] 0 1,
           Action.logA .info [97] 1 1])).stats.totalFlushed) := by
  decide

/-- Claim C1 (amended): after any finite sequence of non-shutdown steps
followed by a clean shutdown, totalFlushed equals totalLogged — every
record that was counted as logged is emitted.  (totalLogged already
excludes suppressed records: a submission accepted by the level filter
increments exactly one of totalLogged and totalDeduplicated, so with
submitted := totalLogged + totalDeduplicated the spec identity
submitted − deduplicated = emitted holds in this form.) -/
theorem c1_no_loss_after_clean_shutdown (wall : Int → String)
    (cfg : Config) (as : List Action) (now : Int)
    (hns : ∀ a ∈ as, a.isShutdown = false) :
    (shutdown wall now (run wall (initState cfg) as)).stats.totalFlushed
      = (shutdown wall now
          (run wall (initState cfg) as)).stats.totalLogged := by
  obtain ⟨hInv, hflag⟩ :=
    run_inv_flag wall as (initState cfg) (inv_init cfg) rfl hns
  simp only [shutdown, hflag, Bool.false_eq_true, if_false]
  have hInv1 : Inv { run wall (initState cfg) as with
      shutdownFlag := true } := ⟨hInv.1, hInv.2⟩
  have h2 := performFlush_inv wall now _ hInv1
  have h3 := performFlush_active_empty wall now _ hInv1
  obtain ⟨hin2, hbal2⟩ := h2
  rw [h3] at hbal2
  simpa using hbal2

/-- The amended C1 at a concrete run: one accepted submission, one
suppressed duplicate, clean shutdown; totalFlushed = totalLogged = 1. -/
theorem c1_no_loss_witness :
    (shutdown wallEx 2 (run wallEx (initState cfgC1)
        [Action.logA .info [97] 0 1,
         Action.logA .info [97] 1 1])).stats.totalFlushed
      = (shutdown wallEx 2 (run wallEx (initState cfgC1)
          [Action.logA .info [97] 0 1,
           Action.logA .info [97] 1 1])).stats.totalLogged :=
  c1_no_loss_after_clean_shutdown wallEx cfgC1
    [Action.logA .info [97] 0 1, Action.logA .info [97] 1 1] 2
    (by decide)

/-- The C10 invariant: every record held in either buffer has
count = 1, and every line emitted so far was formatted from a record
with count = 1. -/
def CountOne (wall : Int → String) (s : LoggerState) : Prop :=
  (∀ e ∈ s.primaryBuffer, e.count = 1)
  ∧ (∀ e ∈ s.secondaryBuffer, e.count = 1)
  ∧ (∀ l ∈ s.fileLines, ∃ e, e.count = 1 ∧ l = formatLogEntry wall e)
  ∧ (∀ l ∈ s.consoleLines, ∃ e, e.count = 1 ∧ l = formatLogEntry wall e)

theorem countOne_init (wall : Int → String) (cfg : Config) :
    CountOne wall (initState cfg) := by
  refine ⟨?_, ?_, ?_, ?_⟩ <;> simp [initState]

theorem performFlush_countOne (wall : Int → String) (now : Int)
    (s : LoggerState) (h : CountOne wall s) :
    CountOne wall (performFlush wall now s) := by
  obtain ⟨hp, hs, hf, hcon⟩ := h
  by_cases hc : activeBuffer s = []
  · simp only [performFlush]
    rw [if_pos hc]
    exact ⟨hp, hs, hf, hcon⟩
  · have hact : ∀ x ∈ activeBuffer s, x.count = 1 := by
      cases hu : s.useSecondaryBuffer
      · simpa [activeBuffer, hu] using hp
      · simpa [activeBuffer, hu] using hs
    have hlines : ∀ l ∈ (activeBuffer s).map (formatLogEntry wall),
        ∃ e, e.count = 1 ∧ l = formatLogEntry wall e := by
      intro l hl
      rcases List.mem_map.1 hl with ⟨e, he, rfl⟩
      exact ⟨e, hact e he, rfl⟩
    have hfile : ∀ l ∈ (if s.fileOpen then
          s.fileLines ++ (activeBuffer s).map (formatLogEntry wall)
        else s.fileLines),
        ∃ e, e.count = 1 ∧ l = formatLogEntry wall e := by
      split
      · intro l hl
        rcases List.mem_append.1 hl with h1 | h1
        · exact hf l h1
        · exact hlines l h1
      · exact hf
    have hcons : ∀ l ∈ (if s.config.consoleOutput then
          s.consoleLines ++ (activeBuffer s).map (formatLogEntry wall)
        else s.consoleLines),
        ∃ e, e.count = 1 ∧ l = formatLogEntry wall e := by
      split
      · intro l hl
        rcases List.mem_append.1 hl with h1 | h1
        · exact hcon l h1
        · exact hlines l h1
      · exact hcon
    cases hu : s.useSecondaryBuffer
    · simp only [activeBuffer, hu, Bool.false_eq_true, if_false]
        at hc hfile hcons
      refine ⟨?_, ?_, ?_, ?_⟩
      · simp [performFlush, activeBuffer, setActiveBuffer, hu, hc]
      · simp only [performFlush, activeBuffer, setActiveBuffer, hu,
          Bool.false_eq_true, if_false, if_neg hc]
        exact hs
      · simp only [performFlush, activeBuffer, setActiveBuffer, hu,
          Bool.false_eq_true, if_false, if_neg hc]
        exact hfile
      · simp only [performFlush, activeBuffer, setActiveBuffer, hu,
          Bool.false_eq_true, if_false, if_neg hc]
        exact hcons
    · simp only [activeBuffer, hu, if_true] at hc hfile hcons
      refine ⟨?_, ?_, ?_, ?_⟩
      · simp only [performFlush, activeBuffer, setActiveBuffer, hu,
          if_true, if_neg hc]
        exact hp
      · simp [performFlush, activeBuffer, setActiveBuffer, hu, hc]
      · simp only [performFlush, activeBuffer, setActiveBuffer, hu,
          if_true, if_neg hc]
        exact hfile
      · simp only [performFlush, activeBuffer, setActiveBuffer, hu,
          if_true, if_neg hc]
        exact hcons

theorem internalLog_countOne (wall : Int → String) (now : Int)
    (s : LoggerState) (e : LogEntry) (he : e.count = 1)
    (h : CountOne wall s) : CountOne wall (internalLog wall now s e) := by
  obtain ⟨hp, hs, hf, hcon⟩ := h
  have hmid : CountOne wall
      ({ setActiveBuffer s (activeBuffer s ++ [e]) with
        stats := { s.stats with
          totalLogged := s.stats.totalLogged + 1,
          currentBufferSize := (activeBuffer s ++ [e]).length } }) := by
    cases hu : s.useSecondaryBuffer
    · refine ⟨?_, ?_, ?_, ?_⟩
      · simp only [setActiveBuffer, hu, Bool.false_eq_true, if_false,
          activeBuffer]
        intro x hx
        rcases List.mem_append.1 hx with h1 | h1
        · exact hp x h1
        · rw [List.mem_singleton.1 h1]
          exact he
      · simpa [setActiveBuffer, hu] using hs
      · simpa [setActiveBuffer, hu] using hf
      · simpa [setActiveBuffer, hu] using hcon
    · refine ⟨?_, ?_, ?_, ?_⟩
      · simpa [setActiveBuffer, hu] using hp
      · simp only [setActiveBuffer, hu, if_true, activeBuffer]
        intro x hx
        rcases List.mem_append.1 hx with h1 | h1
        · exact hs x h1
        · rw [List.mem_singleton.1 h1]
          exact he
      · simpa [setActiveBuffer, hu] using hf
      · simpa [setActiveBuffer, hu] using hcon
  simp only [internalLog]
  split
  · split
    · exact ⟨hmid.1, hmid.2.1, hmid.2.2.1, hmid.2.2.2⟩
    · exact performFlush_countOne wall now _ hmid
  · exact hmid

theorem log_countOne (wall : Int → String) (level : LogLevel)
    (message : List Nat) (now : Int) (tid : Nat) (s : LoggerState)
    (h : CountOne wall s) :
    CountOne wall (log wall level message now tid s) := by
  by_cases hlvl : level.toNat < s.config.minimumLevel.toNat
  · simpa [log, hlvl] using h
  · by_cases hd : s.config.enableDeduplication
    · have hr : CountOne wall
          (shouldDeduplicate s (computeHash message level) now).2 := by
        rw [shouldDeduplicate_state_eq s (computeHash message level) now]
        exact ⟨h.1, h.2.1, h.2.2.1, h.2.2.2⟩
      by_cases hsup :
          (shouldDeduplicate s (computeHash message level) now).1 = true
      · simp only [log, if_neg hlvl, hd, if_true, hsup]
        exact ⟨hr.1, hr.2.1, hr.2.2.1, hr.2.2.2⟩
      · simp only [Bool.not_eq_true] at hsup
        simp only [log, if_neg hlvl, hd, if_true, hsup,
          Bool.false_eq_true, if_false]
        exact internalLog_countOne wall now _ _ rfl hr
    · simp only [Bool.not_eq_true] at hd
      simp only [log, if_neg hlvl, hd, Bool.false_eq_true, if_false]
      exact internalLog_countOne wall now s _ rfl h

theorem flush_countOne (wall : Int → String) (now : Int)
    (s : LoggerState) (h : CountOne wall s) :
    CountOne wall (flush wall now s) := by
  by_cases ha : s.config.asyncFlush
  · simp only [flush, ha, if_true]
    exact ⟨h.1, h.2.1, h.2.2.1, h.2.2.2⟩
  · simp only [Bool.not_eq_true] at ha
    simp only [flush, ha, Bool.false_eq_true, if_false]
    exact performFlush_countOne wall now s h

theorem flushWorkerStep_countOne (wall : Int → String) (now : Int)
    (s : LoggerState) (h : CountOne wall s) :
    CountOne wall (flushWorkerStep wall now s) := by
  by_cases hb : (s.config.asyncFlush && !s.shutdownFlag) = true
  · simp only [flushWorkerStep, hb, if_true]
    exact performFlush_countOne wall now s h
  · simp only [Bool.not_eq_true] at hb
    simp only [flushWorkerStep, hb, Bool.false_eq_true, if_false]
    exact h

theorem enableDeduplication_countOne (wall : Int → String) (b : Bool)
    (s : LoggerState) (h : CountOne wall s) :
    CountOne wall (enableDeduplication b s) := by
  by_cases hb : b = true
  · subst hb
    simp only [enableDeduplication, if_true]
    exact ⟨h.1, h.2.1, h.2.2.1, h.2.2.2⟩
  · simp only [Bool.not_eq_true] at hb
    subst hb
    simp only [enableDeduplication, Bool.false_eq_true, if_false]
    exact ⟨h.1, h.2.1, h.2.2.1, h.2.2.2⟩

theorem shutdown_countOne (wall : Int → String) (now : Int)
    (s : LoggerState) (h : CountOne wall s) :
    CountOne wall (shutdown wall now s) := by
  by_cases hflag : s.shutdownFlag = true
  · simp only [shutdown, hflag, if_true]
    exact h
  · simp only [Bool.not_eq_true] at hflag
    simp only [shutdown, hflag, Bool.false_eq_true, if_false]
    have h1 : CountOne wall { s with shutdownFlag := true } :=
      ⟨h.1, h.2.1, h.2.2.1, h.2.2.2⟩
    have h2 := performFlush_countOne wall now _ h1
    exact ⟨h2.1, h2.2.1, h2.2.2.1, h2.2.2.2⟩

theorem step_countOne (wall : Int → String) (s : LoggerState)
    (a : Action) (h : CountOne wall s) : CountOne wall (step wall s a) := by
  cases a with
  | logA level message now tid => exact log_countOne wall _ _ _ _ s h
  | flushA now => exact flush_countOne wall now s h
  | forceFlushA now => exact performFlush_countOne wall now s h
  | workerA now => exact flushWorkerStep_countOne wall now s h
  | setMinLevelA l => exact ⟨h.1, h.2.1, h.2.2.1, h.2.2.2⟩
  | setDedupA b => exact enableDeduplication_countOne wall b s h
  | shutdownA now => exact shutdown_countOne wall now s h

theorem run_countOne (wall : Int → String) :
    ∀ (as : List Action) (s : LoggerState), CountOne wall s →
      CountOne wall (run wall s as) := by
  intro as
  induction as with
  | nil => intro s h; exact h
  | cons a rest ih => intro s h; exact ih _ (step_countOne wall s a h)

/-- Claim C10: in every state reachable by any finite sequence of steps
(including flushes and shutdown), every record held in either buffer
has count = 1, and every line emitted to the file or console sink was
formatted from a record with count = 1 — so, by the shape of
formatLogEntry, no emitted line carries the repetition suffix. -/
theorem c10_buffered_records_count_one (wall : Int → String)
    (cfg : Config) (as : List Action) :
    (∀ e ∈ (run wall (initState cfg) as).primaryBuffer, e.count = 1)
    ∧ (∀ e ∈ (run wall (initState cfg) as).secondaryBuffer, e.count = 1)
    ∧ (∀ l ∈ (run wall (initState cfg) as).fileLines,
        ∃ e, e.count = 1 ∧ l = formatLogEntry wall e)
    ∧ (∀ l ∈ (run wall (initState cfg) as).consoleLines,
        ∃ e, e.count = 1 ∧ l = formatLogEntry wall e) :=
  run_countOne wall as (initState cfg) (countOne_init wall cfg)

/-- Config used by the C10 witness: synchronous mode, file sink only. -/
def cfgC10 : Config :=
  { bufferSize := 100, maxMemoryBytes := 1000000, flushInterval := 1000,
    enableDeduplication := false, deduplicationWindowSize := 1000,
    deduplicationTimeWindow := 5000, minimumLevel := .trace,
    outputFile := "driver.log", consoleOutput := false,
    asyncFlush := false }

/-- The C10 theorem at a concrete run: one submission and a force
flush; the single emitted file line comes from a count = 1 record. -/
theorem c10_buffered_records_count_one_witness :
    ∃ e, e.count = 1 ∧
      formatLogEntry wallEx (mkLogEntry 0 .info [104, 105] 3 0)
        = formatLogEntry wallEx e :=
  (c10_buffered_records_count_one wallEx cfgC10
      [Action.logA .info [104, 105] 0 3, Action.forceFlushA 1]).2.2.1
    (formatLogEntry wallEx (mkLogEntry 0 .info [104, 105] 3 0))
    (by decide)

end BufferedLogger
